import Mathlib

/-!
Shallow embedding of `openstack_auth/views.py`: session/region switching
against a Keystone-style identity service, best-effort token reaping at
logout, and the CAS ticket-exchange helpers.

External collaborators (the keystone client, django's `authenticate`/`login`,
the HTTP bridge) are oracle parameters.  Pieces of this repository that are
not among the sources here (`utils.is_safe_url`, `forms.Login.get_region_choices`,
`user.set_session_from_user`, `user.create_user_from_token`) are modelled from
the spec and marked as such.
-/

namespace OpenstackAuth

/-- A Python string-keyed pair list, as fed to `dict(...)`.  `dict(pairs).get(k)`
returns the value of the LAST pair whose key is `k` (later pairs win), `None`
when the key is absent. -/
def pydict_get (pairs : List (String × String)) (k : String) : Option String :=
  (pairs.reverse.find? (fun p => p.1 == k)).map Prod.snd

/-- Settings consumed by the views (spec section 6): `AVAILABLE_REGIONS` is an
ordered sequence of `(auth_url, display_name)` pairs; `LOGIN_REDIRECT_URL` is
the default safe redirect target. -/
structure Settings where
  available_regions : List (String × String)
  login_redirect_url : String
  openstack_ssl_no_verify : Bool
  openstack_keystone_url : String
deriving DecidableEq, Repr

/-- A scoped token, with its `.id`. -/
structure Token where
  id : String
deriving DecidableEq, Repr

/-- The request-scoped user: `username`, scoped `token`, current region
`endpoint`. -/
structure User where
  username : String
  token : Token
  endpoint : String
deriving DecidableEq, Repr

/-- The session fields the views read and write (spec section 3).
`none` models an absent key (or a key set to Python `None`). -/
structure Session where
  region_endpoint : Option String := none
  region_name : Option String := none
  region_tokens : Option (List (String × String)) := none
deriving DecidableEq, Repr

/-- What a view returns: either it delegates to `django_logout` (terminating
the session) or it issues a redirect to a target URL. -/
inductive ViewResult where
  | logout
  | redirect (target : String)
deriving DecidableEq, Repr

/-- Find the first occurrence of `sep` in `cs`; return the part before it and
the part after it. -/
def splitFirst (sep : List Char) : List Char → Option (List Char × List Char)
  | [] => if sep.isEmpty then some ([], []) else none
  | c :: cs =>
    if sep.isPrefixOf (c :: cs) then some ([], (c :: cs).drop sep.length)
    else
      match splitFirst sep cs with
      | some (pre, post) => some (c :: pre, post)
      | none => none

/-- The network-location (host) part of a URL: what stands between `://` and
the next `/`; empty for a relative URL. -/
def url_netloc (url : String) : String :=
  match splitFirst ("://".toList) url.toList with
  | none => ""
  | some (_, rest) => String.mk (rest.takeWhile (fun c => c ≠ '/'))

/-- Modelled from the spec: `is_safe_url` comes from django (or, failing the
import, this repository's `utils` module, which is not among the sources).
Spec sections 4.2/7: a redirect target is used only if it is "a same-host
relative URL"; an empty target is never safe.  A URL is safe when it is
non-empty and its network location is either empty (relative URL) or equal to
the request host. -/
def is_safe_url (url : String) (host : String) : Bool :=
  if url.toList.isEmpty then false
  else
    let netloc := url_netloc url
    netloc.toList.isEmpty || netloc == host

/-- Modelled from the spec: `Login.get_region_choices` lives in this
repository's `forms` module, which is not among the sources.  Per spec
section 6 the region choices are the configured `AVAILABLE_REGIONS` ordered
sequence of `(auth_url, display_name)` pairs. -/
def get_region_choices (settings : Settings) : List (String × String) :=
  settings.available_regions

/-- Modelled from the spec: `set_session_from_user` lives in this repository's
`user` module, which is not among the sources.  Per the Session Projector
contract (spec section 4.1) it writes `region_endpoint` from the user's
endpoint and `region_name` from the configured region list; no `region_tokens`
mapping is supplied in these flows, so that field is left alone. -/
def set_session_from_user (settings : Settings) (s : Session) (u : User) : Session :=
  { s with
    region_endpoint := some u.endpoint
    region_name := pydict_get (get_region_choices settings) u.endpoint }

/-- Modelled from the spec: `create_user_from_token` lives in this repository's
`user` module, which is not among the sources.  Per spec section 4.3 it
constructs a new user identity bound to the new token at the given endpoint. -/
def create_user_from_token (username : String) (token : Token) (endpoint : String) : User :=
  { username := username, token := token, endpoint := endpoint }

/-- `views.switch` (lines 104-135).  `authenticate_tenant tenant_id token_id`
is the keystone `client.tokens.authenticate` call: `.ok` is a new scoped
token, `.error` a `ClientException`.  On a client error the exception is
caught, logged and `token = None`; the session is only projected when a token
was obtained.  Returns the final session and the view result. -/
def switch (settings : Settings)
    (authenticate_tenant : String → String → Except Unit Token)
    (host : String) (redirect_param : Option String)
    (req_user : User) (s : Session) (tenant_id : String) : Session × ViewResult :=
  let endpoint := req_user.endpoint
  let token : Option Token :=
    match authenticate_tenant tenant_id req_user.token.id with
    | .ok t => some t
    | .error _ => none
  let redirect_to :=
    let rt := redirect_param.getD ""
    if is_safe_url rt host then rt else settings.login_redirect_url
  match token with
  | some t =>
      let u := create_user_from_token req_user.username t endpoint
      (set_session_from_user settings s u, .redirect redirect_to)
  | none => (s, .redirect redirect_to)

/-- `region_urls = [r[0] for r in available_regs if r[1] == region_name]`
(views.py lines 145-146). -/
def resolve_region_urls (available_regs : List (String × String))
    (region_name : String) : List String :=
  (available_regs.filter (fun r => r.2 == region_name)).map Prod.fst

/-- `views.switch_region` (lines 138-182).  `auth unscoped_token auth_url` is
django's `authenticate` against the keystone backend: `some u` when the
re-authenticated `request.user` is authenticated afterwards, `none` otherwise
(then the view logs out).  `do_login` is django's `login`, whose session-key
rotation may rewrite arbitrary session fields; it is an arbitrary session
transform, applied exactly where the source calls it. -/
def switch_region (settings : Settings)
    (auth : String → String → Option User)
    (do_login : Session → Session)
    (host : String) (redirect_param : Option String)
    (s : Session) (region_name : String) : Session × ViewResult :=
  match resolve_region_urls settings.available_regions region_name with
  | [] => (s, .logout)
  | auth_url :: _ =>
    match s.region_tokens with
    | none => (s, .logout)
    | some region_tokens =>
      match pydict_get region_tokens auth_url with
      | none => (s, .logout)
      | some unscoped_token =>
        match auth unscoped_token auth_url with
        | none => (s, .logout)
        | some user =>
          let s0 := do_login s
          let s1 := set_session_from_user settings s0 user
          let regions := get_region_choices settings
          let region := user.endpoint
          let s2 := { s1 with
                      region_endpoint := some region
                      region_name := pydict_get regions region
                      region_tokens := some region_tokens }
          let rt := redirect_param.getD ""
          let redirect_to := if is_safe_url rt host then rt else settings.login_redirect_url
          (s2, .redirect redirect_to)

/-- `views.delete_all_tokens` (lines 90-101), the token reaper.  A token
tuple is a Python sequence of strings; the loop body extracts `token_tuple[0]`
and `token_tuple[1]`, builds a client and attempts the deletion.  The
`except` clause catches only `keystone_exceptions.ClientException` — modelled
by the oracle `delete_fails endpoint token` — which is logged and the loop
continues.  An `IndexError` from a tuple with fewer than two elements is not
a `ClientException`: it propagates out of the loop.  Returns the list of
`(endpoint, token)` pairs on which a deletion was attempted, and whether an
uncaught exception escaped (abandoning the rest of the list). -/
def delete_all_tokens (delete_fails : String → String → Bool) :
    List (List String) → List (String × String) × Bool
  | [] => ([], false)
  | token_tuple :: rest =>
    match token_tuple.get? 0, token_tuple.get? 1 with
    | some endpoint, some token =>
        -- the deletion is attempted; a ClientException (delete_fails = true)
        -- is caught and logged, and the loop continues either way
        let tail := delete_all_tokens delete_fails rest
        ((endpoint, token) :: tail.1, tail.2)
    | _, _ => ([], true)

/-- A heap of Python list objects (each a list of token tuples), to model
aliasing: `list(x)` allocates a fresh object with `x`'s current elements, so
later mutation of `x` cannot reach the copy. -/
structure Heap where
  cells : List (List (List String))
deriving DecidableEq, Repr

/-- Dereference a list object. -/
def Heap.get (h : Heap) (r : Nat) : List (List String) :=
  (h.cells.get? r).getD []

/-- Allocate a fresh list object holding `v`; returns the new heap and the
fresh reference. -/
def Heap.alloc (h : Heap) (v : List (List String)) : Heap × Nat :=
  (⟨h.cells ++ [v]⟩, h.cells.length)

/-- In-place mutation of an existing list object. -/
def Heap.set (h : Heap) (r : Nat) (v : List (List String)) : Heap :=
  ⟨h.cells.set r v⟩

/-- The dispatch performed by `views.logout` (lines 78-87): when the session
has a `token_list` (a reference to a Python list object), the thread is
started on `list(request.session['token_list'])` — a fresh copy of the list
taken at dispatch time.  Returns the heap after the copy and the reference
handed to the reaper thread (`none` when no `token_list` is in the session,
in which case no thread is started). -/
def logout_dispatch (h : Heap) (token_list_ref : Option Nat) : Heap × Option Nat :=
  match token_list_ref with
  | none => (h, none)
  | some r =>
    let alloced := h.alloc (h.get r)
    (alloced.1, some alloced.2)

/-- Everything up to and including the last '/' of a URL path. -/
def dropAfterLastSlash (p : List Char) : List Char :=
  (p.reverse.dropWhile (fun c => c ≠ '/')).reverse

/-- Modelled from the spec: Python's `urlparse.urljoin(base, "tokens")` (an
external library call), for the relative reference `"tokens"` — the only way
the views use it.  For an absolute base URL the last path segment of the base
is replaced by `tokens`; a base with an empty path gets the path `/tokens`;
for a base without a network location the relative reference itself wins. -/
def urljoin_tokens (base : String) : String :=
  match splitFirst ("://".toList) base.toList with
  | none => "tokens"
  | some (schemeChars, rest) =>
    let netloc := rest.takeWhile (fun c => c ≠ '/')
    let path := rest.drop netloc.length
    let newPath : List Char :=
      if path.isEmpty then '/' :: "tokens".toList
      else dropAfterLastSlash path ++ "tokens".toList
    String.mk (schemeChars ++ "://".toList ++ netloc ++ newPath)

/-- The JSON body the identity bridge answers with (spec section 6): either a
token id under `access.token.id` or a `cas_login_url`. -/
structure CasBody where
  token_id : String
  cas_login_url : String
deriving DecidableEq, Repr

/-- `views._retrieve_cas_token` (lines 185-193).  `http target` is the raw
`client.request(target, POST, body)` call.  The function computes
`url = urljoin(auth_url, 'tokens')` but issues the request to the plain
concatenation `auth_url + "/tokens"`, and returns `body['access']['token']['id']`. -/
def retrieve_cas_token (http : String → CasBody)
    (auth_url : String) (_ticket _service : String) : String :=
  let _url := urljoin_tokens auth_url
  (http (auth_url ++ "/tokens")).token_id

/-- `views._retrieve_cas_url` (lines 196-203): same request shape, returning
`body['cas_login_url']`. -/
def retrieve_cas_url (http : String → CasBody)
    (auth_url : String) (_service : String) : String :=
  let _url := urljoin_tokens auth_url
  (http (auth_url ++ "/tokens")).cas_login_url

/-! ## Helper lemmas -/

theorem find?_of_nodup_keys {l : List (String × String)} {u v : String}
    (hnd : (l.map Prod.fst).Nodup) (hmem : (u, v) ∈ l) :
    l.find? (fun p => p.1 == u) = some (u, v) := by
  induction l with
  | nil => cases hmem
  | cons p t ih =>
    simp only [List.map_cons, List.nodup_cons] at hnd
    rcases List.mem_cons.mp hmem with h | h
    · subst h
      simp [List.find?_cons]
    · have hne : (p.1 == u) = false := by
        apply beq_eq_false_iff_ne.mpr
        intro he
        apply hnd.1
        rw [he]
        exact List.mem_map_of_mem Prod.fst h
      simp only [List.find?_cons, hne]
      exact ih hnd.2 h

theorem pydict_get_of_nodup {l : List (String × String)} {u v : String}
    (hnd : (l.map Prod.fst).Nodup) (hmem : (u, v) ∈ l) :
    pydict_get l u = some v := by
  have hnd' : (l.reverse.map Prod.fst).Nodup := by
    rw [List.map_reverse]
    exact List.nodup_reverse.mpr hnd
  have hmem' : (u, v) ∈ l.reverse := List.mem_reverse.mpr hmem
  unfold pydict_get
  rw [find?_of_nodup_keys hnd' hmem']
  rfl

theorem resolve_head_mem {l : List (String × String)} {rn u : String} {us : List String}
    (h : resolve_region_urls l rn = u :: us) : (u, rn) ∈ l := by
  unfold resolve_region_urls at h
  cases hf : l.filter (fun r => r.2 == rn) with
  | nil => rw [hf] at h; cases h
  | cons q rest =>
    rw [hf] at h
    simp only [List.map_cons, List.cons.injEq] at h
    have hq : q ∈ l.filter (fun r => r.2 == rn) := by
      rw [hf]; exact List.mem_cons_self q rest
    have hql : q ∈ l := (List.mem_filter.mp hq).1
    have hqr : (q.2 == rn) = true := (List.mem_filter.mp hq).2
    have hqu : q = (u, rn) := by
      obtain ⟨q1, q2⟩ := q
      simp only [beq_iff_eq] at hqr
      simp only [Prod.mk.injEq]
      exact ⟨h.1, hqr⟩
    rwa [hqu] at hql

/-! ## Claim theorems: token reaper and logout dispatch -/

/-- Claim C6: for every token list of endpoint/token pairs (each tuple holding
at least the two extracted fields) and every pattern of identity-service
client errors (`delete_fails` arbitrary), the reaper attempts the deletion of
every pair — the attempt list is exactly the N extracted pairs, in order —
and no exception escapes: a `ClientException` on item k never prevents the
attempts for items k+1..N. -/
theorem delete_all_tokens_attempts_all (delete_fails : String → String → Bool)
    (token_list : List (List String))
    (h : ∀ t ∈ token_list, 2 ≤ t.length) :
    (delete_all_tokens delete_fails token_list).1
        = token_list.map (fun t => (t.getD 0 "", t.getD 1 "")) ∧
    (delete_all_tokens delete_fails token_list).2 = false := by
  induction token_list with
  | nil => exact ⟨rfl, rfl⟩
  | cons t ts ih =>
    have ht : 2 ≤ t.length := h t (List.mem_cons_self t ts)
    have hts : ∀ x ∈ ts, 2 ≤ x.length := fun x hx => h x (List.mem_cons_of_mem t hx)
    obtain ⟨ih1, ih2⟩ := ih hts
    rcases t with _ | ⟨a, _ | ⟨b, t2⟩⟩
    · simp at ht
    · simp at ht
    · simp [delete_all_tokens, ih1, ih2, List.getD]

/-- Witness for C6: a two-pair list where the deletion of the first pair
raises a client error; both deletions are still attempted and no error
escapes. -/
theorem delete_all_tokens_attempts_all_witness :
    (delete_all_tokens (fun _ token => token == "t1") [["e1", "t1"], ["e2", "t2"]])
      = ([("e1", "t1"), ("e2", "t2")], false) := by
  obtain ⟨h1, h2⟩ := delete_all_tokens_attempts_all (fun _ token => token == "t1")
    [["e1", "t1"], ["e2", "t2"]] (by decide)
  refine Prod.ext ?_ ?_
  · rw [h1]; rfl
  · rw [h2]

/-- Claim C10: the reaper's `except` clause catches only identity-service
client errors.  A token tuple with fewer than two elements makes the
`token_tuple[0]`/`token_tuple[1]` extraction raise; that error is not caught
(it escapes the loop) and the deletion attempts for every later item are not
made: exactly the items before the bad one are attempted. -/
theorem delete_all_tokens_short_tuple_uncaught (delete_fails : String → String → Bool)
    (pre post : List (List String)) (bad : List String)
    (hpre : ∀ t ∈ pre, 2 ≤ t.length) (hbad : bad.length < 2) :
    (delete_all_tokens delete_fails (pre ++ bad :: post)).1
        = pre.map (fun t => (t.getD 0 "", t.getD 1 "")) ∧
    (delete_all_tokens delete_fails (pre ++ bad :: post)).2 = true := by
  induction pre with
  | nil =>
    simp only [List.nil_append, List.map_nil]
    rcases bad with _ | ⟨a, _ | ⟨b, t2⟩⟩
    · exact ⟨rfl, rfl⟩
    · exact ⟨rfl, rfl⟩
    · simp only [List.length_cons] at hbad
      omega
  | cons t ts ih =>
    have ht : 2 ≤ t.length := hpre t (List.mem_cons_self t ts)
    have hts : ∀ x ∈ ts, 2 ≤ x.length := fun x hx => hpre x (List.mem_cons_of_mem t hx)
    obtain ⟨ih1, ih2⟩ := ih hts
    rcases t with _ | ⟨a, _ | ⟨b, t2⟩⟩
    · simp at ht
    · simp at ht
    · simp [delete_all_tokens, List.cons_append, ih1, ih2, List.getD]

/-- Witness for C10: the malformed second tuple `["e2"]` aborts the loop with
an uncaught error — only the first pair is attempted, the third never is. -/
theorem delete_all_tokens_short_tuple_uncaught_witness :
    (delete_all_tokens (fun _ _ => false) [["e1", "t1"], ["e2"], ["e3", "t3"]])
      = ([("e1", "t1")], true) := by
  obtain ⟨h1, h2⟩ := delete_all_tokens_short_tuple_uncaught (fun _ _ => false)
    [["e1", "t1"]] [["e3", "t3"]] ["e2"] (by decide) (by decide)
  refine Prod.ext ?_ ?_
  · rw [show [["e1", "t1"], ["e2"], ["e3", "t3"]]
        = [["e1", "t1"]] ++ ["e2"] :: [["e3", "t3"]] from rfl, h1]
    rfl
  · rw [show [["e1", "t1"], ["e2"], ["e3", "t3"]]
        = [["e1", "t1"]] ++ ["e2"] :: [["e3", "t3"]] from rfl, h2]

/-- Claim C7: the thread started by `logout` receives `list(token_list)`, a
by-value copy taken at dispatch time: the dispatched reference is a fresh
object, and any later in-place mutation of the session's own `token_list`
object leaves the copy's contents — and hence the pair sequence the reaper
processes — exactly what they were at dispatch. -/
theorem logout_dispatch_private_copy (h : Heap) (r : Nat)
    (delete_fails : String → String → Bool) (v : List (List String))
    (hr : r < h.cells.length) :
    (logout_dispatch h (some r)).2 = some h.cells.length ∧
    h.cells.length ≠ r ∧
    Heap.get (Heap.set (logout_dispatch h (some r)).1 r v) h.cells.length = h.get r ∧
    delete_all_tokens delete_fails
        (Heap.get (Heap.set (logout_dispatch h (some r)).1 r v) h.cells.length)
      = delete_all_tokens delete_fails (h.get r) := by
  have hne : r ≠ h.cells.length := Nat.ne_of_lt hr
  have hget : Heap.get (Heap.set (logout_dispatch h (some r)).1 r v) h.cells.length
      = h.get r := by
    simp only [logout_dispatch, Heap.alloc, Heap.set, Heap.get]
    rw [List.get?_eq_getElem?, List.getElem?_set_ne hne, List.getElem?_concat_length]
    rfl
  exact ⟨rfl, fun he => hne he.symm, hget, by rw [hget]⟩

/-- Witness for C7: a one-cell heap; after dispatch the copy lives at
reference 1, and clearing the original cell 0 leaves the copy's contents
intact. -/
theorem logout_dispatch_private_copy_witness :
    (logout_dispatch ⟨[[["e", "t"]]]⟩ (some 0)).2 = some 1 ∧
    Heap.get (Heap.set (logout_dispatch ⟨[[["e", "t"]]]⟩ (some 0)).1 0 []) 1
      = [["e", "t"]] := by
  obtain ⟨h1, _, h3, _⟩ := logout_dispatch_private_copy ⟨[[["e", "t"]]]⟩ 0
    (fun _ _ => false) [] (by decide)
  exact ⟨h1, h3⟩

/-! ## Claim theorems: region and tenant switching -/

/-- Claim C1: a session whose `region_tokens` holds a cached unscoped token
for the resolved auth_url of target region R, when re-authentication succeeds
(yielding a user at that endpoint), ends the switch with `region_endpoint`
and `region_name` set to R's auth_url and display name, and the full
`region_tokens` mapping written back unchanged — whatever django's `login`
(session-key rotation, modelled as an arbitrary session transform `do_login`)
did to the session in between. -/
theorem switch_region_success_updates_and_preserves
    (settings : Settings) (auth : String → String → Option User)
    (do_login : Session → Session) (host : String) (redirect_param : Option String)
    (s : Session) (region_name u : String) (us : List String)
    (m : List (String × String)) (tok : String) (usr : User)
    (hres : resolve_region_urls settings.available_regions region_name = u :: us)
    (hm : s.region_tokens = some m)
    (htok : pydict_get m u = some tok)
    (hauth : auth tok u = some usr)
    (hend : usr.endpoint = u)
    (hnd : (settings.available_regions.map Prod.fst).Nodup) :
    (switch_region settings auth do_login host redirect_param s region_name).1.region_tokens
        = some m ∧
    (switch_region settings auth do_login host redirect_param s region_name).1.region_endpoint
        = some u ∧
    (switch_region settings auth do_login host redirect_param s region_name).1.region_name
        = some region_name ∧
    ∃ target, (switch_region settings auth do_login host redirect_param s region_name).2
        = ViewResult.redirect target := by
  have hmem : (u, region_name) ∈ settings.available_regions := resolve_head_mem hres
  have hget : pydict_get settings.available_regions u = some region_name :=
    pydict_get_of_nodup hnd hmem
  simp only [switch_region, hres, hm, htok, hauth, hend, get_region_choices, hget]
  exact ⟨trivial, trivial, trivial, _, rfl⟩

/-- Witness for C1: two configured regions, a session on R1 with cached
tokens for both, switching to R2 — even with a `do_login` that flushes the
whole session, as django's key rotation may. -/
theorem switch_region_success_updates_and_preserves_witness :
    (switch_region ⟨[("http://r1", "R1"), ("http://r2", "R2")], "/home", false, "http://k"⟩
        (fun tok url => if tok == "b" && url == "http://r2"
          then some ⟨"alice", ⟨"sc"⟩, "http://r2"⟩ else none)
        (fun _ => ⟨none, none, none⟩) "myapp.example" none
        ⟨some "http://r1", some "R1", some [("http://r1", "a"), ("http://r2", "b")]⟩
        "R2").1.region_tokens = some [("http://r1", "a"), ("http://r2", "b")] ∧
    (switch_region ⟨[("http://r1", "R1"), ("http://r2", "R2")], "/home", false, "http://k"⟩
        (fun tok url => if tok == "b" && url == "http://r2"
          then some ⟨"alice", ⟨"sc"⟩, "http://r2"⟩ else none)
        (fun _ => ⟨none, none, none⟩) "myapp.example" none
        ⟨some "http://r1", some "R1", some [("http://r1", "a"), ("http://r2", "b")]⟩
        "R2").1.region_endpoint = some "http://r2" ∧
    (switch_region ⟨[("http://r1", "R1"), ("http://r2", "R2")], "/home", false, "http://k"⟩
        (fun tok url => if tok == "b" && url == "http://r2"
          then some ⟨"alice", ⟨"sc"⟩, "http://r2"⟩ else none)
        (fun _ => ⟨none, none, none⟩) "myapp.example" none
        ⟨some "http://r1", some "R1", some [("http://r1", "a"), ("http://r2", "b")]⟩
        "R2").1.region_name = some "R2" ∧
    ∃ target, (switch_region ⟨[("http://r1", "R1"), ("http://r2", "R2")], "/home", false, "http://k"⟩
        (fun tok url => if tok == "b" && url == "http://r2"
          then some ⟨"alice", ⟨"sc"⟩, "http://r2"⟩ else none)
        (fun _ => ⟨none, none, none⟩) "myapp.example" none
        ⟨some "http://r1", some "R1", some [("http://r1", "a"), ("http://r2", "b")]⟩
        "R2").2 = ViewResult.redirect target :=
  switch_region_success_updates_and_preserves _ _ _ _ _ _ _ _ []
    [("http://r1", "a"), ("http://r2", "b")] "b" ⟨"alice", ⟨"sc"⟩, "http://r2"⟩
    (by decide) rfl (by decide) (by decide) rfl (by decide)

/-- Claim C2: a `region_name` that is not the display name of any configured
region makes `switch_region` terminate the session (logout path), whatever
the session, the oracles and the redirect parameter; no exception paths are
reachable before the resolution check. -/
theorem switch_region_unknown_region_logs_out
    (settings : Settings) (auth : String → String → Option User)
    (do_login : Session → Session) (host : String) (redirect_param : Option String)
    (s : Session) (region_name : String)
    (h : ∀ r ∈ settings.available_regions, r.2 ≠ region_name) :
    (switch_region settings auth do_login host redirect_param s region_name).2
      = ViewResult.logout := by
  have hres : resolve_region_urls settings.available_regions region_name = [] := by
    unfold resolve_region_urls
    rw [List.filter_eq_nil_iff.mpr (fun a ha => by simpa using h a ha)]
    rfl
  simp [switch_region, hres]

/-- Witness for C2: requesting the unconfigured region "Nowhere" logs the
session out. -/
theorem switch_region_unknown_region_logs_out_witness :
    (switch_region ⟨[("http://r1", "R1")], "/home", false, "http://k"⟩
        (fun _ _ => none) id "myapp.example" none
        ⟨some "http://r1", some "R1", some [("http://r1", "a")]⟩
        "Nowhere").2 = ViewResult.logout :=
  switch_region_unknown_region_logs_out _ _ _ _ _ _ _ (by decide)

/-- Claim C3: when the session has no cached unscoped token for the resolved
region — either no `region_tokens` key at all, or no entry for that auth_url
in it — `switch_region` terminates the session (logout), for every
authentication oracle: re-authentication is never what decides the outcome. -/
theorem switch_region_missing_cached_token_logs_out
    (settings : Settings) (auth : String → String → Option User)
    (do_login : Session → Session) (host : String) (redirect_param : Option String)
    (s : Session) (region_name u : String) (us : List String)
    (hres : resolve_region_urls settings.available_regions region_name = u :: us)
    (hmiss : s.region_tokens = none ∨
      ∃ m, s.region_tokens = some m ∧ pydict_get m u = none) :
    (switch_region settings auth do_login host redirect_param s region_name).2
      = ViewResult.logout := by
  rcases hmiss with hnone | ⟨m, hm, hget⟩
  · simp [switch_region, hres, hnone]
  · simp [switch_region, hres, hm, hget]

/-- Witness for C3: the session caches a token only for R1; switching to R2
logs out, for an oracle that would happily authenticate anything. -/
theorem switch_region_missing_cached_token_logs_out_witness :
    (switch_region ⟨[("http://r1", "R1"), ("http://r2", "R2")], "/home", false, "http://k"⟩
        (fun _ _ => some ⟨"alice", ⟨"sc"⟩, "http://r2"⟩) id "myapp.example" none
        ⟨some "http://r1", some "R1", some [("http://r1", "a")]⟩
        "R2").2 = ViewResult.logout :=
  switch_region_missing_cached_token_logs_out
    ⟨[("http://r1", "R1"), ("http://r2", "R2")], "/home", false, "http://k"⟩
    (fun _ _ => some ⟨"alice", ⟨"sc"⟩, "http://r2"⟩) id "myapp.example" none
    ⟨some "http://r1", some "R1", some [("http://r1", "a")]⟩
    "R2" "http://r2" []
    (by decide) (Or.inr ⟨[("http://r1", "a")], rfl, by decide⟩)

/-- Claim C4: when the identity client raises a client error during the
tenant re-authentication, `switch` leaves the session exactly as it was — in
particular `region_endpoint` and `region_name` keep their prior values — and
still completes with a redirect rather than propagating the error. -/
theorem switch_client_error_is_noop (settings : Settings)
    (authenticate_tenant : String → String → Except Unit Token)
    (host : String) (redirect_param : Option String)
    (req_user : User) (s : Session) (tenant_id : String)
    (herr : authenticate_tenant tenant_id req_user.token.id = Except.error ()) :
    (switch settings authenticate_tenant host redirect_param req_user s tenant_id).1 = s ∧
    (switch settings authenticate_tenant host redirect_param req_user s tenant_id).1.region_endpoint
        = s.region_endpoint ∧
    (switch settings authenticate_tenant host redirect_param req_user s tenant_id).1.region_name
        = s.region_name ∧
    ∃ target, (switch settings authenticate_tenant host redirect_param req_user s tenant_id).2
        = ViewResult.redirect target := by
  simp only [switch, herr]
  exact ⟨trivial, trivial, trivial, _, rfl⟩

/-- Witness for C4: a client error while switching to tenant "t2" leaves the
concrete session untouched and redirects. -/
theorem switch_client_error_is_noop_witness :
    (switch ⟨[("http://r1", "R1")], "/home", false, "http://k"⟩
        (fun _ _ => Except.error ()) "myapp.example" (some "/dashboard")
        ⟨"alice", ⟨"tok0"⟩, "http://r1"⟩
        ⟨some "http://r1", some "R1", some [("http://r1", "a")]⟩ "t2").1
      = ⟨some "http://r1", some "R1", some [("http://r1", "a")]⟩ ∧
    ∃ target, (switch ⟨[("http://r1", "R1")], "/home", false, "http://k"⟩
        (fun _ _ => Except.error ()) "myapp.example" (some "/dashboard")
        ⟨"alice", ⟨"tok0"⟩, "http://r1"⟩
        ⟨some "http://r1", some "R1", some [("http://r1", "a")]⟩ "t2").2
      = ViewResult.redirect target := by
  obtain ⟨h1, _, _, h4⟩ := switch_client_error_is_noop
    ⟨[("http://r1", "R1")], "/home", false, "http://k"⟩
    (fun _ _ => Except.error ()) "myapp.example" (some "/dashboard")
    ⟨"alice", ⟨"tok0"⟩, "http://r1"⟩
    ⟨some "http://r1", some "R1", some [("http://r1", "a")]⟩ "t2" rfl
  exact ⟨h1, h4⟩

/-- Claim C5: both `switch` and `switch_region` validate the user-supplied
redirect parameter: an unsafe target is replaced by the configured
`LOGIN_REDIRECT_URL` default, a safe same-host relative target is used
exactly as given.  Stated for every parameter value `p`; the `switch_region`
half under the hypotheses that put it on its redirect-issuing path. -/
theorem switch_redirect_target_validation (settings : Settings)
    (authenticate_tenant : String → String → Except Unit Token)
    (auth : String → String → Option User) (do_login : Session → Session)
    (host p : String) (req_user : User) (s : Session)
    (tenant_id region_name u : String) (us : List String)
    (m : List (String × String)) (tok : String) (usr : User)
    (hres : resolve_region_urls settings.available_regions region_name = u :: us)
    (hm : s.region_tokens = some m)
    (htok : pydict_get m u = some tok)
    (hauth : auth tok u = some usr) :
    (switch settings authenticate_tenant host (some p) req_user s tenant_id).2
        = ViewResult.redirect
            (if is_safe_url p host then p else settings.login_redirect_url) ∧
    (switch_region settings auth do_login host (some p) s region_name).2
        = ViewResult.redirect
            (if is_safe_url p host then p else settings.login_redirect_url) := by
  constructor
  · cases hx : authenticate_tenant tenant_id req_user.token.id <;> simp [switch, hx]
  · simp [switch_region, hres, hm, htok, hauth]

/-- Witness for C5: against host `myapp.example`, the attacker parameter
`http://evil.example/x` is replaced by the default `/home` in `switch`, and
the safe relative parameter `/dashboard` is used as-is by `switch_region`. -/
theorem switch_redirect_target_validation_witness :
    (switch ⟨[("http://r1", "R1")], "/home", false, "http://k"⟩
        (fun _ _ => Except.error ()) "myapp.example" (some "http://evil.example/x")
        ⟨"alice", ⟨"tok0"⟩, "http://r1"⟩
        ⟨some "http://r1", some "R1", some [("http://r1", "a")]⟩ "t2").2
      = ViewResult.redirect "/home" ∧
    (switch_region ⟨[("http://r1", "R1")], "/home", false, "http://k"⟩
        (fun _ _ => some ⟨"alice", ⟨"sc"⟩, "http://r1"⟩) id "myapp.example"
        (some "/dashboard")
        ⟨some "http://r1", some "R1", some [("http://r1", "a")]⟩ "R1").2
      = ViewResult.redirect "/dashboard" := by
  have h1 := (switch_redirect_target_validation
    ⟨[("http://r1", "R1")], "/home", false, "http://k"⟩
    (fun _ _ => Except.error ())
    (fun _ _ => some ⟨"alice", ⟨"sc"⟩, "http://r1"⟩) id
    "myapp.example" "http://evil.example/x"
    ⟨"alice", ⟨"tok0"⟩, "http://r1"⟩
    ⟨some "http://r1", some "R1", some [("http://r1", "a")]⟩
    "t2" "R1" "http://r1" [] [("http://r1", "a")] "a" ⟨"alice", ⟨"sc"⟩, "http://r1"⟩
    (by decide) rfl (by decide) (by decide)).1
  have h2 := (switch_redirect_target_validation
    ⟨[("http://r1", "R1")], "/home", false, "http://k"⟩
    (fun _ _ => Except.error ())
    (fun _ _ => some ⟨"alice", ⟨"sc"⟩, "http://r1"⟩) id
    "myapp.example" "/dashboard"
    ⟨"alice", ⟨"tok0"⟩, "http://r1"⟩
    ⟨some "http://r1", some "R1", some [("http://r1", "a")]⟩
    "t2" "R1" "http://r1" [] [("http://r1", "a")] "a" ⟨"alice", ⟨"sc"⟩, "http://r1"⟩
    (by decide) rfl (by decide) (by decide)).2
  rw [show is_safe_url "http://evil.example/x" "myapp.example" = false from by decide] at h1
  rw [show is_safe_url "/dashboard" "myapp.example" = true from by decide] at h2
  exact ⟨h1, h2⟩

/-- Claim C9: when several configured entries share the requested display
name, the resolution of lines 145-150 yields the auth_url of the first
matching entry in configuration order — and `switch_region` consults the
cached token of exactly that auth_url: a session holding tokens only for the
other matching entries still logs out. -/
theorem switch_region_first_matching_entry (settings : Settings)
    (auth : String → String → Option User) (do_login : Session → Session)
    (host : String) (redirect_param : Option String)
    (region_name u : String) (pre rest : List (String × String))
    (havail : settings.available_regions = pre ++ (u, region_name) :: rest)
    (hpre : ∀ p ∈ pre, p.2 ≠ region_name) :
    (resolve_region_urls settings.available_regions region_name).head? = some u ∧
    ∀ (s : Session) (m : List (String × String)),
      s.region_tokens = some m → pydict_get m u = none →
      (switch_region settings auth do_login host redirect_param s region_name).2
        = ViewResult.logout := by
  have hres : resolve_region_urls settings.available_regions region_name
      = u :: (rest.filter (fun r => r.2 == region_name)).map Prod.fst := by
    rw [havail]
    unfold resolve_region_urls
    rw [List.filter_append,
      List.filter_eq_nil_iff.mpr (fun a ha => by simpa using hpre a ha)]
    simp
  refine ⟨by rw [hres]; rfl, fun s m hm hget => ?_⟩
  simp [switch_region, hres, hm, hget]

/-- Witness for C9: two entries both named "R"; resolution picks the first
auth_url, and a session caching a token only for the second one logs out. -/
theorem switch_region_first_matching_entry_witness :
    (resolve_region_urls [("http://ra", "R"), ("http://rb", "R")] "R").head?
      = some "http://ra" ∧
    (switch_region ⟨[("http://ra", "R"), ("http://rb", "R")], "/home", false, "http://k"⟩
        (fun _ _ => some ⟨"alice", ⟨"sc"⟩, "http://rb"⟩) id "myapp.example" none
        ⟨none, none, some [("http://rb", "tokb")]⟩ "R").2 = ViewResult.logout := by
  have h := switch_region_first_matching_entry
    ⟨[("http://ra", "R"), ("http://rb", "R")], "/home", false, "http://k"⟩
    (fun _ _ => some ⟨"alice", ⟨"sc"⟩, "http://rb"⟩) id "myapp.example" none
    "R" "http://ra" [] [("http://rb", "R")] rfl (by decide)
  exact ⟨h.1, h.2 ⟨none, none, some [("http://rb", "tokb")]⟩ [("http://rb", "tokb")]
    rfl (by decide)⟩

/-! ## Claim theorem: CAS ticket exchange -/

/-- Claim C8: for every auth_url the CAS exchange steps issue their request
to the raw string concatenation `auth_url + "/tokens"` — never to the
`urljoin(auth_url, 'tokens')` value they also compute, which at the sample
base `http://keystone.example/v2.0` differs from the concatenation (the join
replaces the `/v2.0` segment). -/
theorem cas_request_uses_raw_concat (http : String → CasBody) :
    (∀ auth_url ticket service, retrieve_cas_token http auth_url ticket service
        = (http (auth_url ++ "/tokens")).token_id) ∧
    (∀ auth_url service, retrieve_cas_url http auth_url service
        = (http (auth_url ++ "/tokens")).cas_login_url) ∧
    urljoin_tokens "http://keystone.example/v2.0"
        ≠ "http://keystone.example/v2.0" ++ "/tokens" ∧
    urljoin_tokens "http://keystone.example/v2.0" = "http://keystone.example/tokens" :=
  ⟨fun _ _ _ => rfl, fun _ _ => rfl, by decide, by decide⟩

end OpenstackAuth
